import Mathlib

/-!
Verification development for the resume / quiz / interview backend
(`src/main.py`).  The reproducible core of that program is the
prompt-and-parse contract with the generative model: three generator
functions (`extract_resume_info`, `generate_mcqs`, `generate_question`),
the response-cleaning step they share, and the HTTP endpoints that look
records up in the store.  The model gateway (`genai` call) is embedded as
a function argument `gateway : String → String` from prompt to raw reply,
and every operation additionally returns the list of prompts it sent to
the gateway, so "the model is called zero times" is expressed as that
list being empty.  The store lookup (`resume_collection.find_one`) is
embedded as an `Option Resume` argument holding the lookup result.
-/

/-! ## Python string primitives -/

/-- Characters removed by Python `str.strip()` with no argument
(ASCII whitespace as used by CPython for `str`). -/
def isPyWs (c : Char) : Bool :=
  c = ' ' || c = '\t' || c = '\n' || c = '\r' || c = '\x0b' || c = '\x0c'

/-- Membership in the character set of the Python literal `"```json"`.
Python `str.strip(chars)` treats its argument as a SET of characters,
so `strip("```json")` removes backticks and the letters j, s, o, n. -/
def isFenceSetChar (c : Char) : Bool :=
  c = '`' || c = 'j' || c = 's' || c = 'o' || c = 'n'

/-- Membership in the character set of the Python literal `"```"`. -/
def isTickChar (c : Char) : Bool :=
  c = '`'

/-- Python `str.strip(chars)`: drop characters satisfying `f` from both
ends of the string (maximal runs, character-set semantics). -/
def stripEnds (f : Char → Bool) (s : List Char) : List Char :=
  ((s.dropWhile f).reverse.dropWhile f).reverse

/-- The cleaning step shared by the three generators
(`response.text.strip().strip("```json").strip("```")`,
`src/main.py` lines 112, 198, 268). -/
def cleanedResponse (s : List Char) : List Char :=
  stripEnds isTickChar (stripEnds isFenceSetChar (stripEnds isPyWs s))

/-- String-level wrapper for `cleanedResponse`. -/
def pyCleaned (s : String) : String :=
  String.mk (cleanedResponse s.data)

/-- Python `str.lower()` (ASCII letters; the utterances compared in the
code are plain ASCII). -/
def pyLower (s : String) : String :=
  String.mk (s.data.map Char.toLower)

/-- Python `', '.join(xs)`. -/
def joinComma (xs : List String) : String :=
  String.intercalate (", ") xs

/-! ## JSON values and `json.loads`

The program delegates parsing to Python `json.loads`; the embedding
implements the JSON grammar it accepts (values, strict strings, numbers
kept as their validated lexeme, `NaN`/`Infinity` extensions) with a fuel
argument bounding recursion depth.  The claims only ever distinguish
whether parsing succeeds and, for successful parses, small concrete
values, so the numeric value of a number literal is kept as its text. -/

/-- JSON value as produced by `json.loads`.  A number is kept as its
validated source lexeme; the claims never inspect numeric values. -/
inductive JsonVal where
  | null
  | bool (b : Bool)
  | num (lex : String)
  | str (s : String)
  | arr (elems : List JsonVal)
  | obj (fields : List (String × JsonVal))

/-- JSON whitespace (the four characters `json.loads` skips). -/
def isJsonWs (c : Char) : Bool :=
  c = ' ' || c = '\t' || c = '\n' || c = '\r'

/-- Skip JSON whitespace. -/
def skipWs (s : List Char) : List Char :=
  s.dropWhile isJsonWs

/-- Hexadecimal digit value, for `\u` escapes. -/
def hexVal (c : Char) : Option Nat :=
  if '0' ≤ c ∧ c ≤ '9' then some (c.toNat - 48)
  else if 'a' ≤ c ∧ c ≤ 'f' then some (c.toNat - 87)
  else if 'A' ≤ c ∧ c ≤ 'F' then some (c.toNat - 55)
  else none

/-- Parse the body of a JSON string (after the opening quote), returning
its decoded characters and the input past the closing quote.  Raw
control characters are rejected, as by `json.loads` in strict mode. -/
def parseStrChars (s : List Char) : Option (List Char × List Char) :=
  match s with
  | [] => none
  | c :: rest =>
    if c = '"' then some ([], rest)
    else if c = '\\' then
      match rest with
      | [] => none
      | e :: rest2 =>
        if e = '"' then (parseStrChars rest2).map (fun r => ('"' :: r.1, r.2))
        else if e = '\\' then (parseStrChars rest2).map (fun r => ('\\' :: r.1, r.2))
        else if e = '/' then (parseStrChars rest2).map (fun r => ('/' :: r.1, r.2))
        else if e = 'b' then (parseStrChars rest2).map (fun r => ('\x08' :: r.1, r.2))
        else if e = 'f' then (parseStrChars rest2).map (fun r => ('\x0c' :: r.1, r.2))
        else if e = 'n' then (parseStrChars rest2).map (fun r => ('\n' :: r.1, r.2))
        else if e = 'r' then (parseStrChars rest2).map (fun r => ('\r' :: r.1, r.2))
        else if e = 't' then (parseStrChars rest2).map (fun r => ('\t' :: r.1, r.2))
        else if e = 'u' then
          match rest2 with
          | h1 :: h2 :: h3 :: h4 :: rest3 =>
            match hexVal h1, hexVal h2, hexVal h3, hexVal h4 with
            | some a, some b, some c2, some d =>
              (parseStrChars rest3).map
                (fun r => (Char.ofNat (((a * 16 + b) * 16 + c2) * 16 + d) :: r.1, r.2))
            | _, _, _, _ => none
          | _ => none
        else none
    else if c.toNat < 32 then none
    else (parseStrChars rest).map (fun r => (c :: r.1, r.2))
termination_by s.length
decreasing_by all_goals (simp_all [List.length_cons]; try omega)

/-- Split a run of decimal digits off the front of the input. -/
def takeDigits (s : List Char) : List Char × List Char :=
  (s.takeWhile Char.isDigit, s.dropWhile Char.isDigit)

/-- Parse the exponent part of a JSON number (after `e`/`E`),
returning its characters. -/
def numExpPart (s : List Char) : Option (List Char × List Char) :=
  match s with
  | 'e' :: t | 'E' :: t =>
    let (sgn, t2) :=
      match t with
      | '+' :: u => (['+'], u)
      | '-' :: u => (['-'], u)
      | _ => (([] : List Char), t)
    let (ds, t3) := takeDigits t2
    if ds = [] then none else some (s.head?.toList ++ sgn ++ ds, t3)
  | _ => some ([], s)

/-- Parse the fraction part of a JSON number (optional `.digits`). -/
def numFracPart (s : List Char) : Option (List Char × List Char) :=
  match s with
  | '.' :: t =>
    let (ds, t2) := takeDigits t
    if ds = [] then none else some ('.' :: ds, t2)
  | _ => some ([], s)

/-- Parse a JSON number at the head of the input, returning its lexeme
and the remainder.  Leading zeros are rejected (JSON grammar). -/
def numLexemeSplit (s : List Char) : Option (List Char × List Char) :=
  let (sgn, s1) :=
    match s with
    | '-' :: t => ((['-'] : List Char), t)
    | _ => (([] : List Char), s)
  let (ids, s2) := takeDigits s1
  match ids with
  | [] => none
  | '0' :: _ :: _ => none
  | _ =>
    match numFracPart s2 with
    | none => none
    | some (fr, s3) =>
      match numExpPart s3 with
      | none => none
      | some (ex, s4) => some (sgn ++ ids ++ fr ++ ex, s4)

/-- Match a literal word at the head of the input, returning the
remainder on success. -/
def dropLit : List Char → List Char → Option (List Char)
  | [], s => some s
  | l :: ls, c :: cs => if c = l then dropLit ls cs else none
  | _ :: _, [] => none

/-- Parse a keyword or number token.  The literal words `NaN`,
`Infinity` and `-Infinity` are accepted, as by Python `json.loads` with
its default settings. -/
def parseAtom (s : List Char) : Option (JsonVal × List Char) :=
  match dropLit ("null".data) s with
  | some rest => some (.null, rest)
  | none =>
    match dropLit ("true".data) s with
    | some rest => some (.bool true, rest)
    | none =>
      match dropLit ("false".data) s with
      | some rest => some (.bool false, rest)
      | none =>
        match dropLit ("NaN".data) s with
        | some rest => some (.num ("NaN"), rest)
        | none =>
          match dropLit ("Infinity".data) s with
          | some rest => some (.num ("Infinity"), rest)
          | none =>
            match dropLit ("-Infinity".data) s with
            | some rest => some (.num ("-Infinity"), rest)
            | none => (numLexemeSplit s).map (fun r => (.num (String.mk r.1), r.2))

mutual

/-- Parse one JSON value (fuel-bounded recursive descent): skip leading
whitespace, then dispatch on the first character. -/
def parseValue : Nat → List Char → Option (JsonVal × List Char)
  | 0, _ => none
  | fuel + 1, s => parseTop fuel (skipWs s)

/-- Dispatch on the first character of whitespace-free input. -/
def parseTop : Nat → List Char → Option (JsonVal × List Char)
  | _, [] => none
  | _, '"' :: rest => (parseStrChars rest).map (fun r => (.str (String.mk r.1), r.2))
  | fuel + 1, '[' :: rest => parseArrayRest fuel rest
  | fuel + 1, '\x7b' :: rest => parseObjRest fuel rest
  | 0, '[' :: _ => none
  | 0, '\x7b' :: _ => none
  | _, c :: rest => parseAtom (c :: rest)

/-- Parse the remainder of a JSON array (after the opening bracket). -/
def parseArrayRest : Nat → List Char → Option (JsonVal × List Char)
  | 0, _ => none
  | fuel + 1, s =>
    match skipWs s with
    | ']' :: rest => some (.arr [], rest)
    | _ => (parseElems fuel s).map (fun r => (.arr r.1, r.2))

/-- Parse one or more comma-separated array elements up to the closing
bracket. -/
def parseElems : Nat → List Char → Option (List JsonVal × List Char)
  | 0, _ => none
  | fuel + 1, s =>
    match parseValue fuel s with
    | none => none
    | some (v, rest) =>
      match skipWs rest with
      | ',' :: rest2 => (parseElems fuel rest2).map (fun r => (v :: r.1, r.2))
      | ']' :: rest2 => some ([v], rest2)
      | _ => none

/-- Parse the remainder of a JSON object (after the opening brace). -/
def parseObjRest : Nat → List Char → Option (JsonVal × List Char)
  | 0, _ => none
  | fuel + 1, s =>
    match skipWs s with
    | '\x7d' :: rest => some (.obj [], rest)
    | _ => (parseMembers fuel s).map (fun r => (.obj r.1, r.2))

/-- Parse one or more comma-separated object members up to the closing
brace. -/
def parseMembers : Nat → List Char → Option (List (String × JsonVal) × List Char)
  | 0, _ => none
  | fuel + 1, s =>
    match skipWs s with
    | '"' :: rest =>
      match parseStrChars rest with
      | none => none
      | some (key, rest1) =>
        match skipWs rest1 with
        | ':' :: rest2 =>
          match parseValue fuel rest2 with
          | none => none
          | some (v, rest3) =>
            match skipWs rest3 with
            | ',' :: rest4 =>
              (parseMembers fuel rest4).map (fun r => ((String.mk key, v) :: r.1, r.2))
            | '\x7d' :: rest4 => some ([(String.mk key, v)], rest4)
            | _ => none
        | _ => none
    | _ => none

end

/-- Python `json.loads`: parse the whole string as one JSON document;
trailing non-whitespace input is an error.  The fuel bound exceeds any
possible nesting depth of the input. -/
def json_loads (s : String) : Option JsonVal :=
  match parseValue (5 * s.data.length + 5) s.data with
  | some (v, rest) => if skipWs rest = [] then some v else none
  | none => none

/-! ## `json.dumps` (used at `src/main.py` lines 294-295) -/

/-- Lowercase hexadecimal digit. -/
def hexDigitChar (n : Nat) : Char :=
  if n < 10 then Char.ofNat (48 + n % 16) else Char.ofNat (87 + n % 16)

/-- Escape one character as Python `json.dumps` does with its default
`ensure_ascii=True` (non-ASCII and control characters become `\u`
escapes; astral-plane surrogate pairs are not modelled, no claim input
contains such a character). -/
def escapeJsonChar (c : Char) : String :=
  if c = '"' then "\\\""
  else if c = '\\' then "\\\\"
  else if c = '\n' then "\\n"
  else if c = '\r' then "\\r"
  else if c = '\t' then "\\t"
  else if c = '\x08' then "\\b"
  else if c = '\x0c' then "\\f"
  else if c.toNat < 32 || c.toNat > 126 then
    String.mk ['\\', 'u', hexDigitChar (c.toNat / 4096 % 16), hexDigitChar (c.toNat / 256 % 16),
      hexDigitChar (c.toNat / 16 % 16), hexDigitChar (c.toNat % 16)]
  else String.mk [c]

/-- Serialize a string with quotes and escaping, as `json.dumps` does. -/
def dumpJsonString (s : String) : String :=
  "\"" ++ String.join (s.data.map escapeJsonChar) ++ "\""

mutual

/-- Python `json.dumps` with its default separators `", "` and `": "`. -/
def json_dumps : JsonVal → String
  | .null => "null"
  | .bool true => "true"
  | .bool false => "false"
  | .num lex => lex
  | .str s => dumpJsonString s
  | .arr vs => "[" ++ dumpsElems vs ++ "]"
  | .obj kvs => "\x7b" ++ dumpsMembers kvs ++ "\x7d"

/-- Comma-separated array elements. -/
def dumpsElems : List JsonVal → String
  | [] => ""
  | [v] => json_dumps v
  | v :: vs => json_dumps v ++ ", " ++ dumpsElems vs

/-- Comma-separated object members. -/
def dumpsMembers : List (String × JsonVal) → String
  | [] => ""
  | [(k, v)] => dumpJsonString k ++ ": " ++ json_dumps v
  | (k, v) :: kvs => dumpJsonString k ++ ": " ++ json_dumps v ++ ", " ++ dumpsMembers kvs

end

/-! ## The Response Normalizer (strip then parse) -/

/-- Result of the shared strip-then-parse step: the parsed value, or a
failure carrying the stripped text that failed to parse. -/
inductive NormalizeResult where
  | ok (v : JsonVal)
  | failure (raw : String)

/-- The Response Normalizer: clean the raw model reply, then attempt a
strict JSON parse; the failure case keeps the cleaned text (which is
what the generators attach as `raw_response`). -/
def normalizeResponse (raw : String) : NormalizeResult :=
  match json_loads (pyCleaned raw) with
  | some v => .ok v
  | none => .failure (pyCleaned raw)

/-- Result of one generator call, mirroring the dictionaries the Python
functions return: `ok v` is the parsed JSON value, `err msg raw` is an
error dictionary with message `msg` and, when `raw` is `some`, a
`raw_response` entry holding the cleaned reply text. -/
inductive GenResult where
  | ok (v : JsonVal)
  | err (msg : String) (raw : Option String)

/-- Error-message prefix of `extract_resume_info` (the Python message
appends the decoder error detail `str(e)` after this prefix; no claim
depends on that suffix). -/
def extractInvalidMsg : String :=
  "Invalid JSON response from Gemini: "

/-- Error-message prefix of `generate_mcqs` (the Python message appends
`str(e)` after this prefix). -/
def mcqsInvalidMsg : String :=
  "Invalid JSON from Gemini: "

/-! ## Resume Extractor (`extract_resume_info`, lines 86-119) -/

/-- The extraction prompt (lines 90-103). -/
def extractPrompt (text : String) : String :=
  "\n    Extract the following key details from the resume text:\n    - Name\n    - Skills" ++
  "\n    - Projects\n    - Experience\n    - Education\n    - Other important details\n\n" ++
  "    Resume text:\n    " ++ text ++
  "\n\n    Provide the output in **valid JSON format** without any additional text.\n    "

/-- Resume Extractor: build the prompt, call the gateway once, normalize
the reply.  Also returns the list of prompts sent to the gateway. -/
def extract_resume_info (gateway : String → String) (text : String) :
    GenResult × List String :=
  let prompt := extractPrompt text
  let raw := gateway prompt
  match normalizeResponse raw with
  | .ok v => (.ok v, [prompt])
  | .failure cleaned => (.err extractInvalidMsg (some cleaned), [prompt])

/-! ## Quiz Generator (`generate_mcqs`, lines 145-204) -/

/-- The sampled 12 skills: `random.sample(skills, 12)` picks 12 distinct
POSITIONS of the input list; the drawn positions are supplied as the
oracle argument `idx` and the sample reads the input at them in sampled
order. -/
def randomSample (skills : List String) (idx : List Nat) : List String :=
  idx.map (fun i => skills.getD i (""))

/-- What `random.sample(skills, 12)` guarantees about the drawn
positions: there are 12 of them, they are pairwise distinct, and each is
in range. -/
def SampleSpec (skills : List String) (idx : List Nat) : Prop :=
  idx.length = 12 ∧ idx.Nodup ∧ ∀ i ∈ idx, i < skills.length

/-- Partition of the sample (lines 154-156): first 4 easy, next 4
medium, rest hard. -/
def selectBands (selected : List String) : List String × List String × List String :=
  (selected.take 4, (selected.drop 4).take 4, selected.drop 8)

/-- The quiz prompt (lines 158-192). -/
def mcqPrompt (easy medium hard : List String) : String :=
  "\n    Generate multiple-choice questions (MCQs) based on the following skills:\n\n" ++
  "    - **Easy Skills**: " ++ joinComma easy ++ "\n" ++
  "    - **Medium Skills**: " ++ joinComma medium ++ "\n" ++
  "    - **Hard Skills**: " ++ joinComma hard ++ "\n\n" ++
  "    **Instructions:**\n    - Generate **5 MCQs per difficulty level**.\n" ++
  "    - Each question should have **4 options**, with one correct answer.\n" ++
  "    - The generated questions must be directly related to the skill.\n" ++
  "    - Include the skill name in the question or answer choices.\n" ++
  "    - Make sure the questions are unique, clear, and well-structured.\n" ++
  "    - The incorrect options should be plausible but clearly incorrect to someone familiar with the skill.\n" ++
  "    - **Output must be in JSON format**:\n\n    ```json\n    \x7b\n      \"easy\": [\n" ++
  "        \x7b\"question\": \"Q1\", \"options\": [\"A\", \"B\", \"C\", \"D\"], \"answer\": \"A\", \"skill\": \"Skill1\"\x7d,\n" ++
  "        ...\n      ],\n      \"medium\": [\n" ++
  "        \x7b\"question\": \"Q1\", \"options\": [\"A\", \"B\", \"C\", \"D\"], \"answer\": \"B\", \"skill\": \"Skill5\"\x7d,\n" ++
  "        ...\n      ],\n      \"hard\": [\n" ++
  "        \x7b\"question\": \"Q1\", \"options\": [\"A\", \"B\", \"C\", \"D\"], \"answer\": \"C\", \"skill\": \"Skill9\"\x7d,\n" ++
  "        ...\n      ]\n    \x7d\n    ```\n\n" ++
  "    Return only valid JSON without explanations or formatting errors.\n    "

/-- Quiz Generator.  With fewer than 12 skills it returns the error
dictionary at once (lines 149-150) and sends no prompt; otherwise it
samples, builds the prompt from the three bands, calls the gateway once
and normalizes the reply (lines 194-204). -/
def generate_mcqs (gateway : String → String) (idx : List Nat) (skills : List String) :
    GenResult × List String :=
  if skills.length < 12 then
    (.err ("Not enough skills available to generate MCQs") none, [])
  else
    let selected := randomSample skills idx
    let bands := selectBands selected
    let prompt := mcqPrompt bands.1 bands.2.1 bands.2.2
    let raw := gateway prompt
    match normalizeResponse raw with
    | .ok v => (.ok v, [prompt])
    | .failure cleaned => (.err mcqsInvalidMsg (some cleaned), [prompt])

/-! ## Interview Turn Generator (`generate_question`, lines 235-274) -/

/-- Python truthiness of the optional utterance: `None` and the empty
string are falsy. -/
def pyTruthy : Option String → Bool
  | none => false
  | some s => s != ""

/-- The `context` block (lines 239-242): a Candidate Response line when
the utterance is truthy, otherwise empty. -/
def contextOf : Option String → String
  | none => ""
  | some c => if c != "" then "\nCandidate Response: " ++ c ++ "\n" else ""

/-- Python `', '.join(xs) if xs else default` (truthiness of a list is
nonemptiness). -/
def joinOrDefault (xs : List String) (default : String) : String :=
  if xs.isEmpty then default else joinComma xs

/-- Rendering of the `name` value inside the prompt f-string.  In Python
this is `str(name)`; for a string it is the string itself, and for the
structured values the store may hold the rendering differs from
`json.dumps` only in quoting details no claim depends on. -/
def pyStr : JsonVal → String
  | .str s => s
  | v => json_dumps v

/-- The interview prompt (lines 244-262). -/
def questionPrompt (projects experience : List String) (name : JsonVal)
    (context : String) : String :=
  "\n    You are an expert interviewer who is conducting a chat with a candidate for a" ++
  " software engineering position. Your task is to ask the candidate questions to evaluate" ++
  " their skills and experience.\n    Every chat must start with greetings and friendly" ++
  " chat with the candidate. If data contains personal information like " ++ pyStr name ++
  " make sure to use it for greeting the candidate and other personalizations. One key" ++
  " thing is manage pace of the conversation and ask questions in a way that it feels" ++
  " like a real conversation. first start from greeting and then ask about their work" ++
  " experience.\n    - The candidate has experience in " ++
  joinOrDefault experience ("various fields") ++ ".\n    - Their projects include " ++
  joinOrDefault projects ("various technologies") ++ ".\n" ++
  "    - Ask short but meaningful technical questions (max 2 sentences).\n" ++
  "    - Ensure questions are conversational and follow up on the candidate\x27s answers.\n" ++
  "    - If the candidate says \"exit\", return: \x7b\"message\": \"Interview ended.\"\x7d\n" ++
  "    \n    Context:\n    " ++ context ++ "\n    \n" ++
  "    Generate the next question in JSON format:\n    ```json\n    \x7b\n" ++
  "      \"question\": \"Your next question here\"\n    \x7d\n    ```\n    "

/-- Interview Turn Generator: build the conversational prompt, call the
gateway once, normalize.  On a parse failure the returned error
dictionary is `{"error": "Invalid JSON from Gemini"}` WITHOUT any
`raw_response` entry (line 274). -/
def generate_question (gateway : String → String) (projects experience : List String)
    (name : JsonVal) (candidate_response : Option String) : GenResult × List String :=
  let context := contextOf candidate_response
  let prompt := questionPrompt projects experience name context
  let raw := gateway prompt
  match normalizeResponse raw with
  | .ok v => (.ok v, [prompt])
  | .failure _ => (.err ("Invalid JSON from Gemini") none, [prompt])

/-! ## Store records and the HTTP endpoints -/

/-- A stored resume as read back by the endpoints.  The fields model the
results of the dictionary lookups the code performs, with their
defaults already applied: `projects` and `experience` are
`resume.get("text", {}).get(key, [])`, `name` likewise (its Python
default is the empty list, modelled as `.arr []`), `skills` is the
skill list read by the quiz endpoint, and `textStr` is the stored text
value as passed back into `extract_resume_info` by `extract_info`. -/
structure Resume where
  projects : List JsonVal
  experience : List JsonVal
  name : JsonVal
  skills : List String
  textStr : String

/-- Response of `/get-resume/{fid}` (lines 68-84). -/
inductive GetResumeOut where
  | error (msg : String)
  | resume (r : Resume)

/-- Endpoint `/get-resume/{fid}`: the store lookup result is passed in;
a missing record yields the structured error dictionary.  This endpoint
never calls the model. -/
def get_resume (find : Option Resume) : GetResumeOut :=
  match find with
  | none => .error ("Resume not found")
  | some r => .resume r

/-- Response of `/extract-info/{resume_id}` (lines 122-139). -/
inductive ExtractInfoOut where
  | error (msg : String)
  | extracted (r : GenResult)

/-- Endpoint `/extract-info/{resume_id}`: on a missing record, the
structured error dictionary and no model call; otherwise re-run
extraction on the stored text. -/
def extract_info (gateway : String → String) (find : Option Resume) :
    ExtractInfoOut × List String :=
  match find with
  | none => (.error ("Resume not found"), [])
  | some r =>
    let res := extract_resume_info gateway r.textStr
    (.extracted res.1, res.2)

/-- Response of `/generate-mcqs/{fid}` (lines 209-229). -/
inductive McqsOut where
  | error (msg : String)
  | mcqs (r : GenResult)

/-- Endpoint `/generate-mcqs/{fid}`: a missing record or an empty skill
list yields the structured error dictionary and no model call;
otherwise generate the quiz. -/
def generate_resume_mcqs (gateway : String → String) (idx : List Nat)
    (find : Option Resume) : McqsOut × List String :=
  match find with
  | none => (.error ("Resume not found"), [])
  | some r =>
    if r.skills.isEmpty then (.error ("No skills found in resume"), [])
    else
      let res := generate_mcqs gateway idx r.skills
      (.mcqs res.1, res.2)

/-- A raised `HTTPException` (status code and detail). -/
structure HTTPError where
  status : Nat
  detail : String

/-- Successful response of `/interview/{fid}` (lines 278-302): either
the terminal sentinel dictionary `{"message": "Interview ended."}` or
the result of `generate_question`. -/
inductive InterviewOut where
  | ended
  | result (q : GenResult)

/-- The early-exit test (line 297): the utterance is truthy and its
lowercasing equals "exit". -/
def isExit : Option String → Bool
  | none => false
  | some c => c != "" && pyLower c == "exit"

/-- Entry serialization (lines 294-295):
`exp if isinstance(exp, str) else json.dumps(exp)`. -/
def entryToString : JsonVal → String
  | .str s => s
  | v => json_dumps v

/-- Endpoint `/interview/{fid}`.  A missing record RAISES
`HTTPException(status_code=404, detail="Resume not found")` (line 287),
modelled as the `Except.error` case.  Otherwise the stored entries are
serialized to strings, the early-exit rule is checked, and the next
question is generated. -/
def interview (gateway : String → String) (find : Option Resume)
    (candidate_response : Option String) :
    Except HTTPError InterviewOut × List String :=
  match find with
  | none => (.error ⟨404, "Resume not found"⟩, [])
  | some r =>
    let experience := r.experience.map entryToString
    let projects := r.projects.map entryToString
    if isExit candidate_response then (.ok .ended, [])
    else
      let res := generate_question gateway projects experience r.name candidate_response
      (.ok (.result res.1), res.2)

/-! ## Decidable end-of-payload conditions (used by the C1 statement) -/

/-- A character that none of the three strip passes can remove: not in
the `str.strip("```json")` character set and not whitespace. -/
def charSafe (c : Char) : Bool :=
  !(isFenceSetChar c) && !(isPyWs c)

/-- The first character of the payload (if any) survives stripping. -/
def headSafe (s : List Char) : Bool :=
  match s.head? with
  | none => true
  | some c => charSafe c

/-- The last character of the payload (if any) survives stripping. -/
def lastSafe (s : List Char) : Bool :=
  match s.getLast? with
  | none => true
  | some c => charSafe c

/-! ## Lemmas about character-set stripping -/

theorem dropWhile_append_of_all {f : Char → Bool} {pre s : List Char}
    (h : ∀ c ∈ pre, f c = true) : (pre ++ s).dropWhile f = s.dropWhile f := by
  induction pre with
  | nil => rfl
  | cons a t ih =>
    have ha : f a = true := h a (List.mem_cons_self a t)
    simp only [List.cons_append, List.dropWhile_cons, ha, if_true]
    exact ih (fun c hc => h c (List.mem_cons_of_mem a hc))

theorem dropWhile_eq_self_of_head {f : Char → Bool} {s : List Char}
    (h : ∀ c, s.head? = some c → f c = false) : s.dropWhile f = s := by
  cases s with
  | nil => rfl
  | cons a t => simp [List.dropWhile_cons, h a rfl]

theorem stripEnds_eq_self {f : Char → Bool} {s : List Char}
    (hh : ∀ c, s.head? = some c → f c = false)
    (hl : ∀ c, s.getLast? = some c → f c = false) : stripEnds f s = s := by
  unfold stripEnds
  rw [dropWhile_eq_self_of_head hh]
  rw [dropWhile_eq_self_of_head (fun c hc => hl c (by rwa [List.head?_reverse] at hc))]
  exact List.reverse_reverse s

theorem stripEnds_wrap {f : Char → Bool} {pre suf p : List Char}
    (hpre : ∀ c ∈ pre, f c = true) (hsuf : ∀ c ∈ suf, f c = true)
    (hh : ∀ c, p.head? = some c → f c = false)
    (hl : ∀ c, p.getLast? = some c → f c = false) :
    stripEnds f (pre ++ p ++ suf) = p := by
  unfold stripEnds
  rw [List.append_assoc, dropWhile_append_of_all hpre]
  cases p with
  | nil =>
    have h1 : suf.dropWhile f = [] := by
      rw [List.dropWhile_eq_nil_iff]
      exact fun x hx => hsuf x hx
    simp [h1]
  | cons a t =>
    have hfa : f a = false := hh a rfl
    have h2 : ((a :: t) ++ suf).dropWhile f = (a :: t) ++ suf := by
      simp [List.dropWhile_cons, hfa]
    rw [h2, List.reverse_append,
      dropWhile_append_of_all (fun c hc => hsuf c (List.mem_reverse.mp hc)),
      dropWhile_eq_self_of_head (fun c hc => hl c (by rwa [List.head?_reverse] at hc)),
      List.reverse_reverse]

theorem charSafe_fence {c : Char} (h : charSafe c = true) : isFenceSetChar c = false := by
  cases hb : isFenceSetChar c
  · rfl
  · unfold charSafe at h; rw [hb] at h; simp at h

theorem charSafe_ws {c : Char} (h : charSafe c = true) : isPyWs c = false := by
  cases hb : isPyWs c
  · rfl
  · unfold charSafe at h; rw [hb] at h; simp at h

theorem charSafe_tick {c : Char} (h : charSafe c = true) : isTickChar c = false := by
  have hf : isFenceSetChar c = false := charSafe_fence h
  unfold isFenceSetChar at hf
  unfold isTickChar
  simp only [Bool.or_eq_false_iff, decide_eq_false_iff_not] at hf
  simp only [decide_eq_false_iff_not]
  exact hf.1.1.1.1

theorem headSafe_spec {s : List Char} (h : headSafe s = true) :
    ∀ c, s.head? = some c → charSafe c = true := by
  intro c hc
  unfold headSafe at h
  rw [hc] at h
  exact h

theorem lastSafe_spec {s : List Char} (h : lastSafe s = true) :
    ∀ c, s.getLast? = some c → charSafe c = true := by
  intro c hc
  unfold lastSafe at h
  rw [hc] at h
  exact h

theorem cleanedResponse_wrapped (p : List Char)
    (hh : ∀ c, p.head? = some c → charSafe c = true)
    (hl : ∀ c, p.getLast? = some c → charSafe c = true) :
    cleanedResponse ("```json".data ++ p ++ "```".data) = p ∧
    cleanedResponse ("```".data ++ p ++ "```".data) = p ∧
    cleanedResponse p = p := by
  have hhf : ∀ c, p.head? = some c → isFenceSetChar c = false :=
    fun c hc => charSafe_fence (hh c hc)
  have hlf : ∀ c, p.getLast? = some c → isFenceSetChar c = false :=
    fun c hc => charSafe_fence (hl c hc)
  have hht : ∀ c, p.head? = some c → isTickChar c = false :=
    fun c hc => charSafe_tick (hh c hc)
  have hlt : ∀ c, p.getLast? = some c → isTickChar c = false :=
    fun c hc => charSafe_tick (hl c hc)
  have hhw : ∀ c, p.head? = some c → isPyWs c = false :=
    fun c hc => charSafe_ws (hh c hc)
  have hlw : ∀ c, p.getLast? = some c → isPyWs c = false :=
    fun c hc => charSafe_ws (hl c hc)
  have hp : cleanedResponse p = p := by
    unfold cleanedResponse
    rw [stripEnds_eq_self hhw hlw, stripEnds_eq_self hhf hlf, stripEnds_eq_self hht hlt]
  refine ⟨?_, ?_, hp⟩
  · have hws : stripEnds isPyWs ("```json".data ++ p ++ "```".data) =
        "```json".data ++ p ++ "```".data := by
      apply stripEnds_eq_self
      · intro c hc
        have hhead : ("```json".data ++ p ++ "```".data).head? = some '`' := rfl
        rw [hhead] at hc
        rw [← Option.some.inj hc]
        decide
      · intro c hc
        have hlast : ("```json".data ++ p ++ "```".data).getLast? = some '`' := by
          rw [List.getLast?_append_of_ne_nil ("```json".data ++ p) (by decide)]
          decide
        rw [hlast] at hc
        rw [← Option.some.inj hc]
        decide
    unfold cleanedResponse
    rw [hws, stripEnds_wrap (by decide) (by decide) hhf hlf, stripEnds_eq_self hht hlt]
  · have hws : stripEnds isPyWs ("```".data ++ p ++ "```".data) =
        "```".data ++ p ++ "```".data := by
      apply stripEnds_eq_self
      · intro c hc
        have hhead : ("```".data ++ p ++ "```".data).head? = some '`' := rfl
        rw [hhead] at hc
        rw [← Option.some.inj hc]
        decide
      · intro c hc
        have hlast : ("```".data ++ p ++ "```".data).getLast? = some '`' := by
          rw [List.getLast?_append_of_ne_nil ("```".data ++ p) (by decide)]
          decide
        rw [hlast] at hc
        rw [← Option.some.inj hc]
        decide
    unfold cleanedResponse
    rw [hws, stripEnds_wrap (by decide) (by decide) hhf hlf, stripEnds_eq_self hht hlt]

/-- C1 (amended): the stripping is Python character-set stripping, not a
literal substring strip, so the fence-invariance of the Response
Normalizer holds for payloads whose first and last characters are
outside the strip set `` {`, j, s, o, n} `` and not whitespace: for such
a payload, normalizing the fenced reply (with or without the `json` tag)
returns the same result as normalizing the payload directly. -/
theorem c1_fence_strip_amended (p : String)
    (hh : headSafe p.data = true) (hl : lastSafe p.data = true) :
    normalizeResponse ("```json" ++ p ++ "```") = normalizeResponse p ∧
    normalizeResponse ("```" ++ p ++ "```") = normalizeResponse p := by
  obtain ⟨h1, h2, h3⟩ := cleanedResponse_wrapped p.data (headSafe_spec hh) (lastSafe_spec hl)
  have e1 : pyCleaned ("```json" ++ p ++ "```") = pyCleaned p := by
    unfold pyCleaned
    rw [String.data_append, String.data_append, h1, h3]
  have e2 : pyCleaned ("```" ++ p ++ "```") = pyCleaned p := by
    unfold pyCleaned
    rw [String.data_append, String.data_append, h2, h3]
  constructor
  · unfold normalizeResponse
    rw [e1]
  · unfold normalizeResponse
    rw [e2]

theorem c1_fence_strip_amended_witness :
    normalizeResponse ("```json" ++ ("\x7b\x7d") ++ "```") = normalizeResponse ("\x7b\x7d") ∧
    normalizeResponse ("```" ++ ("\x7b\x7d") ++ "```") = normalizeResponse ("\x7b\x7d") :=
  c1_fence_strip_amended ("\x7b\x7d") (by decide) (by decide)

/-- C1 (counterexample): the claim fails as stated.  The reply
`` ```json null``` `` wraps the JSON text `` null`` (equally: the JSON
text `null` with one whitespace separator) in a single Markdown JSON
fence; the normalizer parses the fenced reply to `null`, yet normalizing
the unfenced text directly FAILS, because the character-set strip eats
the leading `n` of `null`, leaving `ull` — the stripping is not a
literal substring strip and does not leave the payload untouched. -/
theorem c1_counterexample :
    normalizeResponse ("```json null```") = .ok .null ∧
    normalizeResponse (" null") = .failure ("ull") ∧
    normalizeResponse ("null") = .failure ("ull") :=
  ⟨rfl, rfl, rfl⟩

/-- C2: with fewer than 12 skills the Quiz Generator returns the failure
dictionary with its descriptive message immediately, and the model
gateway receives no prompt at all during the call. -/
theorem c2_short_skills_failure (g : String → String) (idx : List Nat)
    (skills : List String) (h : skills.length < 12) :
    generate_mcqs g idx skills =
      (.err ("Not enough skills available to generate MCQs") none, []) := by
  unfold generate_mcqs
  rw [if_pos h]

theorem c2_short_skills_failure_witness :
    generate_mcqs (fun _ => ("")) [] ["python"] =
      (.err ("Not enough skills available to generate MCQs") none, []) :=
  c2_short_skills_failure (fun _ => ("")) [] ["python"] (by decide)

/-- C4: whenever the utterance lowercases to exactly "exit", the
interview operation (with any found resume) returns the terminal
sentinel and sends no prompt to the model gateway. -/
theorem c4_exit_sentinel (g : String → String) (r : Resume) (cr : String)
    (h : pyLower cr = "exit") :
    interview g (some r) (some cr) = (.ok .ended, []) := by
  have hne : cr ≠ "" := by
    intro he
    rw [he] at h
    exact absurd h (by decide)
  have hex : isExit (some cr) = true := by
    simp [isExit, h, hne]
  simp [interview, hex]

theorem c4_exit_sentinel_witness :
    interview (fun _ => ("")) (some ⟨[], [], .null, [], ""⟩) (some ("EXIT")) =
      (.ok .ended, []) :=
  c4_exit_sentinel (fun _ => ("")) ⟨[], [], .null, [], ""⟩ ("EXIT") (by decide)

/-- C5 (counterexample): the claim fails as stated.  On the unfenced
malformed reply "not json at all" the normalizer DOES fail, but the raw
text it attaches is "t json at all", not the verbatim reply: the
character-set strip `strip("```json")` removes the leading letters n, o
(both in the strip set) before parsing. -/
theorem c5_counterexample :
    normalizeResponse ("not json at all") = .failure ("t json at all") ∧
    ("t json at all" : String) ≠ ("not json at all") ∧
    (extract_resume_info (fun _ => ("not json at all")) ("resume text")).1 =
      .err extractInvalidMsg (some ("t json at all")) :=
  ⟨rfl, by decide, rfl⟩

/-- C5 (amended): on the gateway reply "not json at all" the Response
Normalizer returns a Failure whose attached raw response text equals
"t json at all" — the reply after the character-set strip has eaten the
leading "no" — and the resume extractor surfaces that same text in its
error dictionary. -/
theorem c5_malformed_raw_amended :
    normalizeResponse ("not json at all") = .failure ("t json at all") ∧
    (extract_resume_info (fun _ => ("not json at all")) ("resume input")).1 =
      .err extractInvalidMsg (some ("t json at all")) :=
  ⟨rfl, rfl⟩

theorem json_loads_of_ws (s : String) (h : ∀ c ∈ s.data, isJsonWs c = true) :
    json_loads s = none := by
  have hskip : skipWs s.data = [] := by
    unfold skipWs
    rw [List.dropWhile_eq_nil_iff]
    exact fun x hx => h x hx
  have hpv : parseValue (5 * s.data.length + 5) s.data = none := by
    obtain ⟨k, hk⟩ : ∃ k, 5 * s.data.length + 5 = k + 1 := ⟨5 * s.data.length + 4, by omega⟩
    rw [hk]
    simp only [parseValue]
    rw [hskip]
    simp only [parseTop]
  unfold json_loads
  rw [hpv]

/-- C9: any model reply whose cleaned form consists of whitespace only
(in particular the empty string, e.g. after stripping a bare fence) is a
parse failure: the Response Normalizer returns the Failure value
carrying that cleaned text — a total function, no exception escapes and
no default value is substituted. -/
theorem c9_empty_after_strip_failure (raw : String)
    (h : ∀ c ∈ (pyCleaned raw).data, isJsonWs c = true) :
    normalizeResponse raw = .failure (pyCleaned raw) := by
  unfold normalizeResponse
  rw [json_loads_of_ws (pyCleaned raw) h]

theorem c9_empty_after_strip_failure_witness :
    normalizeResponse ("```json```") = .failure (pyCleaned ("```json```")) :=
  c9_empty_after_strip_failure ("```json```") (by decide)

/-- C10: the empty utterance behaves exactly like no utterance: it does
not trigger the early-exit check, contributes no Candidate Response
line, and the whole interview-turn result (including the one constructed
prompt, returned in the call log) is identical. -/
theorem c10_empty_utterance_noop (g : String → String) (find : Option Resume)
    (projects experience : List String) (name : JsonVal) :
    interview g find (some ("")) = interview g find none ∧
    generate_question g projects experience name (some ("")) =
      generate_question g projects experience name none := by
  constructor
  · cases find with
    | none => rfl
    | some r => rfl
  · rfl

/-- C6 (counterexample): the claim fails as stated.  On a malformed
reply the interview-turn generator returns the error dictionary
`{"error": "Invalid JSON from Gemini"}` with NO raw text attached
(`raw = none`): the third generator discards the stripped reply. -/
theorem c6_counterexample :
    (generate_question (fun _ => ("not json at all")) [] [] .null none).1 =
      .err ("Invalid JSON from Gemini") none :=
  rfl

/-- C6 (amended): on any reply that is not valid JSON after stripping,
resume extraction and quiz generation return Failure values carrying the
stripped raw reply text, but interview-turn generation returns its
Failure WITHOUT the raw text. -/
theorem c6_failure_raw_amended (reply text : String) (idx : List Nat)
    (skills projects experience : List String) (name : JsonVal) (cr : Option String)
    (h : json_loads (pyCleaned reply) = none) (hskills : 12 ≤ skills.length) :
    (extract_resume_info (fun _ => reply) text).1 =
      .err extractInvalidMsg (some (pyCleaned reply)) ∧
    (generate_mcqs (fun _ => reply) idx skills).1 =
      .err mcqsInvalidMsg (some (pyCleaned reply)) ∧
    (generate_question (fun _ => reply) projects experience name cr).1 =
      .err ("Invalid JSON from Gemini") none := by
  have hn : normalizeResponse reply = .failure (pyCleaned reply) := by
    unfold normalizeResponse
    rw [h]
  refine ⟨?_, ?_, ?_⟩
  · simp [extract_resume_info, hn]
  · unfold generate_mcqs
    rw [if_neg (by omega : ¬ skills.length < 12)]
    simp [hn]
  · simp [generate_question, hn]

theorem c6_failure_raw_amended_witness :
    (extract_resume_info (fun _ => ("not json at all")) ("r")).1 =
      .err extractInvalidMsg (some (pyCleaned ("not json at all"))) ∧
    (generate_mcqs (fun _ => ("not json at all")) (List.range 12)
        ["a1", "a2", "a3", "a4", "a5", "a6", "a7", "a8", "a9", "a10", "a11", "a12"]).1 =
      .err mcqsInvalidMsg (some (pyCleaned ("not json at all"))) ∧
    (generate_question (fun _ => ("not json at all")) [] [] .null none).1 =
      .err ("Invalid JSON from Gemini") none :=
  c6_failure_raw_amended ("not json at all") ("r") (List.range 12)
    ["a1", "a2", "a3", "a4", "a5", "a6", "a7", "a8", "a9", "a10", "a11", "a12"] [] []
    .null none (by rfl) (by decide)

/-- C7 (amended): on a failed lookup, get-resume, extract-info and
generate-mcqs return the structured dictionary {error: "Resume not
found"}, while the interview endpoint RAISES
HTTPException(404, "Resume not found"); none of the four makes a model
call in that case. -/
theorem c7_not_found_amended (g : String → String) (idx : List Nat) (cr : Option String) :
    get_resume none = .error ("Resume not found") ∧
    extract_info g none = (.error ("Resume not found"), []) ∧
    generate_resume_mcqs g idx none = (.error ("Resume not found"), []) ∧
    interview g none cr = (.error ⟨404, "Resume not found"⟩, []) :=
  ⟨rfl, rfl, rfl, rfl⟩

/-- C7 (counterexample): the claim fails as stated for the interview
endpoint: on a failed lookup it does not return the structured
{error: "Resume not found"} value — it raises
HTTPException(status_code=404, detail="Resume not found"), modelled by
the Except.error case. -/
theorem c7_counterexample :
    interview (fun _ => ("")) none none =
      (Except.error ⟨404, "Resume not found"⟩, ([] : List String)) :=
  rfl

/-- C8: entry serialization happens before prompt construction: string
entries pass through unchanged, structured entries (objects, arrays)
become their compact JSON text, and the interview operation on any
stored resume behaves identically to the same operation on the resume
whose Projects and Experience entries were replaced by their serialized
string forms — hence the comma-separated listing in the prompt is built
from strings only. -/
theorem c8_serialize_before_prompt (g : String → String) (r : Resume) (cr : Option String) :
    (∀ s : String, entryToString (.str s) = s) ∧
    (∀ kvs : List (String × JsonVal), entryToString (.obj kvs) = json_dumps (.obj kvs)) ∧
    (∀ vs : List JsonVal, entryToString (.arr vs) = json_dumps (.arr vs)) ∧
    interview g (some r) cr =
      interview g (some ⟨r.projects.map (fun e => .str (entryToString e)),
        r.experience.map (fun e => .str (entryToString e)), r.name, r.skills, r.textStr⟩) cr := by
  refine ⟨fun s => rfl, fun kvs => rfl, fun vs => rfl, ?_⟩
  simp only [interview, List.map_map]
  have hcomp : (entryToString ∘ fun e => JsonVal.str (entryToString e)) = entryToString := by
    funext e
    rfl
  rw [hcomp]

/-- C3 (amended): for any input of length at least 12, `random.sample`
draws 12 pairwise-distinct POSITIONS of the input; the sample reads the
input at those positions in sampled order, has length 12, consists of
input elements, splits 4/4/4 into the easy, medium and hard bands whose
concatenation is the sample, and that split is the one whose prompt the
quiz generator sends.  When the input entries are themselves pairwise
distinct (the spec precondition of 12 distinct skills), the sample has
no repeated skill and no skill appears in two bands; with duplicated
input entries a value can repeat (see the counterexample). -/
theorem c3_sample_partition_amended (skills : List String) (idx : List Nat)
    (g : String → String) (hlen : 12 ≤ skills.length) (hspec : SampleSpec skills idx) :
    (randomSample skills idx).length = 12 ∧
    (∀ s ∈ randomSample skills idx, s ∈ skills) ∧
    (selectBands (randomSample skills idx)).1.length = 4 ∧
    (selectBands (randomSample skills idx)).2.1.length = 4 ∧
    (selectBands (randomSample skills idx)).2.2.length = 4 ∧
    (selectBands (randomSample skills idx)).1 ++ (selectBands (randomSample skills idx)).2.1 ++
      (selectBands (randomSample skills idx)).2.2 = randomSample skills idx ∧
    (generate_mcqs g idx skills).2 =
      [mcqPrompt (selectBands (randomSample skills idx)).1
        (selectBands (randomSample skills idx)).2.1
        (selectBands (randomSample skills idx)).2.2] ∧
    (skills.Nodup →
      (randomSample skills idx).Nodup ∧
      ∀ s : String,
        ¬ (s ∈ (selectBands (randomSample skills idx)).1 ∧
           s ∈ (selectBands (randomSample skills idx)).2.1) ∧
        ¬ (s ∈ (selectBands (randomSample skills idx)).1 ∧
           s ∈ (selectBands (randomSample skills idx)).2.2) ∧
        ¬ (s ∈ (selectBands (randomSample skills idx)).2.1 ∧
           s ∈ (selectBands (randomSample skills idx)).2.2)) := by
  obtain ⟨hl12, hnd, hbound⟩ := hspec
  have hlen12 : (randomSample skills idx).length = 12 := by
    unfold randomSample
    rw [List.length_map, hl12]
  have hmem : ∀ s ∈ randomSample skills idx, s ∈ skills := by
    intro s hs
    unfold randomSample at hs
    obtain ⟨i, hi, hsi⟩ := List.mem_map.mp hs
    have hib : i < skills.length := hbound i hi
    rw [List.getD_eq_getElem skills ("") hib] at hsi
    rw [← hsi]
    exact List.getElem_mem hib
  have he4 : (selectBands (randomSample skills idx)).1.length = 4 := by
    unfold selectBands
    rw [List.length_take, hlen12]
    decide
  have hm4 : (selectBands (randomSample skills idx)).2.1.length = 4 := by
    unfold selectBands
    rw [List.length_take, List.length_drop, hlen12]
    decide
  have hh4 : (selectBands (randomSample skills idx)).2.2.length = 4 := by
    unfold selectBands
    rw [List.length_drop, hlen12]
  have hsplit : (selectBands (randomSample skills idx)).1 ++
      (selectBands (randomSample skills idx)).2.1 ++
      (selectBands (randomSample skills idx)).2.2 = randomSample skills idx := by
    unfold selectBands
    have h8 : (randomSample skills idx).drop 8 =
        ((randomSample skills idx).drop 4).drop 4 := by
      rw [List.drop_drop]
    rw [h8, List.append_assoc, List.take_append_drop, List.take_append_drop]
  have hlog : (generate_mcqs g idx skills).2 =
      [mcqPrompt (selectBands (randomSample skills idx)).1
        (selectBands (randomSample skills idx)).2.1
        (selectBands (randomSample skills idx)).2.2] := by
    unfold generate_mcqs
    rw [if_neg (by omega : ¬ skills.length < 12)]
    cases hx : normalizeResponse (g (mcqPrompt (selectBands (randomSample skills idx)).1
        (selectBands (randomSample skills idx)).2.1
        (selectBands (randomSample skills idx)).2.2)) with
    | ok v => simp [hx]
    | failure raw => simp [hx]
  refine ⟨hlen12, hmem, he4, hm4, hh4, hsplit, hlog, ?_⟩
  intro hsknd
  have hselnd : (randomSample skills idx).Nodup := by
    unfold randomSample
    apply hnd.map_on
    intro x hx y hy hxy
    have hxb : x < skills.length := hbound x hx
    have hyb : y < skills.length := hbound y hy
    rw [List.getD_eq_getElem skills ("") hxb, List.getD_eq_getElem skills ("") hyb] at hxy
    exact (List.Nodup.getElem_inj_iff hsknd).mp hxy
  refine ⟨hselnd, ?_⟩
  intro s
  have hnd3 : ((selectBands (randomSample skills idx)).1 ++
      (selectBands (randomSample skills idx)).2.1 ++
      (selectBands (randomSample skills idx)).2.2).Nodup := by
    rw [hsplit]
    exact hselnd
  rw [List.append_assoc, List.nodup_append] at hnd3
  obtain ⟨hne_, hrest, hdisj1⟩ := hnd3
  rw [List.nodup_append] at hrest
  obtain ⟨hnm_, hnh_, hdisj2⟩ := hrest
  refine ⟨?_, ?_, ?_⟩
  · intro hpair
    exact hdisj1 hpair.1 (List.mem_append_left _ hpair.2)
  · intro hpair
    exact hdisj1 hpair.1 (List.mem_append_right _ hpair.2)
  · intro hpair
    exact hdisj2 hpair.1 hpair.2

theorem c3_sample_partition_amended_witness :
    (randomSample ["S1", "S2", "S3", "S4", "S5", "S6", "S7", "S8", "S9", "S10", "S11", "S12",
      "S13", "S14", "S15"] (List.range 12)).length = 12 :=
  (c3_sample_partition_amended
    ["S1", "S2", "S3", "S4", "S5", "S6", "S7", "S8", "S9", "S10", "S11", "S12",
      "S13", "S14", "S15"] (List.range 12) (fun _ => (""))
    (by decide) ⟨by decide, by decide, by decide⟩).1

/-- C3 (counterexample): the claim fails as stated.  With the length-12
input consisting of twelve copies of "a" — admissible, since the claim
only requires length at least 12 — every draw of 12 distinct positions
yields the sample ["a", ..., "a"]: the sample HAS repeats, and the skill
"a" appears in both the easy and the medium band. -/
theorem c3_counterexample :
    SampleSpec (List.replicate 12 ("a")) (List.range 12) ∧
    ¬ (randomSample (List.replicate 12 ("a")) (List.range 12)).Nodup ∧
    ("a" : String) ∈ (selectBands (randomSample (List.replicate 12 ("a")) (List.range 12))).1 ∧
    ("a" : String) ∈ (selectBands (randomSample (List.replicate 12 ("a")) (List.range 12))).2.1 := by
  refine ⟨⟨by decide, by decide, by decide⟩, by decide, by decide, by decide⟩
